import Mathlib

/-!
Verification of the sensor-event ingestion and alert-dispatch engine of
the Botibot repository: the cooldown gate, the single-flight audio
dispatcher, the threshold evaluator with its interleaved cooldown calls
(`src/server/main.py`), the two polling reader monitor loops
(`src/app/data_reader.py`, `src/app/mongodb_reader.py`), the
concatenated-JSON recovery parser and the display-side status
classification (`src/app/screens.py`).

Times and sensor values are modelled as rationals (Python floats enter
only through order comparisons here, which are exact).
-/

/-- The alert kinds tracked by the `last_audio_alerts` dictionary in
`src/server/main.py` (keys `high_temp`, `low_temp`, `high_bpm`,
`low_bpm`, `normal_bpm`, `alcohol`, `motion`, `mqtt_connected`,
`system_startup`). -/
inductive AlertKind where
  | highTemp
  | lowTemp
  | highBpm
  | lowBpm
  | normalBpm
  | alcohol
  | motion
  | mqttConnected
  | systemStartup
deriving DecidableEq, Repr

/-- `CooldownState` maps each alert kind to the instant it last fired;
the dictionary `last_audio_alerts` starts with every entry at `0`. -/
def CooldownState : Type := AlertKind → ℚ

/-- The initial `last_audio_alerts` dictionary: every kind maps to 0. -/
def initial_last_audio_alerts : CooldownState := fun _ => 0

/-- The `AUDIO_COOLDOWN` constant (30 seconds) of `src/server/main.py`. -/
def AUDIO_COOLDOWN : ℚ := 30

/-- Embedding of `should_play_audio_alert` (src/server/main.py lines
67-73): if `now - last_audio_alerts.get(kind, 0) >= cooldown` it stamps
`now` for `kind` and returns `true`; otherwise it returns `false` and
leaves the state untouched.  The cooldown window and the current time
are explicit arguments (the source reads `AUDIO_COOLDOWN` and
`time.time()`). -/
def should_play_audio_alert (st : CooldownState) (cooldown now : ℚ)
    (kind : AlertKind) : Bool × CooldownState :=
  if now - st kind ≥ cooldown then
    (true, fun j => if j = kind then now else st j)
  else
    (false, st)

/-- Outcome of one call to the audio-playing function `func(*args)`
inside `audio_task`: it returns a success flag, returns a failure flag,
or raises an exception. -/
inductive ActionOutcome where
  | success
  | failure
  | raises
deriving DecidableEq, Repr

/-- The mutable state touched by `audio_task`: the non-blocking
`audio_lock` and the `audio_playing` flag. -/
structure AudioState where
  locked : Bool
  playing : Bool
deriving DecidableEq, Repr

/-- Result of running `audio_task` (src/server/main.py lines 79-96):
the state after the task, whether the task acquired the guard and ran
the action, and whether an exception escaped the task. -/
structure TaskResult where
  state : AudioState
  started : Bool
  escaped : Bool
deriving DecidableEq, Repr

/-- Semantics of `func(*args)` for each outcome: the returned success
flag and whether it raised. -/
def run_func : ActionOutcome → Bool × Bool
  | .success => (true, false)
  | .failure => (false, false)
  | .raises => (false, true)

/-- Embedding of `audio_task` inside `play_audio_threaded`
(src/server/main.py lines 79-96).  `audio_lock.acquire(blocking=False)`
fails when the lock is held, and the task returns at once without
touching anything.  Otherwise the body runs under
`try ... except Exception ... finally`: the `except` clause catches any
exception from `func`, and the `finally` clause clears `audio_playing`
and releases the lock on every exit path. -/
def audio_task (s : AudioState) (outcome : ActionOutcome) : TaskResult :=
  if s.locked then
    { state := s, started := false, escaped := false }
  else
    let s₁ : AudioState := { s with locked := true }
    let s₂ : AudioState := { s₁ with playing := true }
    let raised := (run_func outcome).2
    -- `except Exception` catches `raised`; nothing propagates past it
    let escaped := raised && false
    -- `finally`: audio_playing := False; audio_lock.release()
    let s₃ : AudioState := { s₂ with playing := false }
    let s₄ : AudioState := { s₃ with locked := false }
    { state := s₄, started := true, escaped := escaped }

/-- `n` concurrent `audio_task` bodies all reaching their
`audio_lock.acquire(blocking=False)` call before any task releases the
lock.  The acquire is atomic, so any interleaving is a sequence of
attempts against a lock that, once taken, stays taken; the list records
each task's `started` result in attempt order. -/
def dispatchRace : Nat → Bool → List Bool
  | 0, _ => []
  | n + 1, locked =>
      if locked then
        false :: dispatchRace n locked
      else
        true :: dispatchRace n true

/-- Once the lock is taken, every later attempt in the race fails. -/
theorem dispatchRace_locked (n : Nat) :
    dispatchRace n true = List.replicate n false := by
  induction n with
  | zero => rfl
  | succ n ih => simp [dispatchRace, ih, List.replicate]

/-- The boolean returned by the gate is the elapsed-time test. -/
theorem should_play_fst (st : CooldownState) (w now : ℚ) (k : AlertKind) :
    (should_play_audio_alert st w now k).1 = decide (w ≤ now - st k) := by
  unfold should_play_audio_alert
  by_cases h : w ≤ now - st k <;> simp [h]

/-- When the gate fires, the new state stamps `now` for `kind`. -/
theorem should_play_snd_pos (st : CooldownState) (w now : ℚ) (k : AlertKind)
    (h : w ≤ now - st k) :
    (should_play_audio_alert st w now k).2
      = fun j => if j = k then now else st j := by
  unfold should_play_audio_alert
  rw [if_pos h]

/-- When the gate suppresses, the state is untouched. -/
theorem should_play_snd_neg (st : CooldownState) (w now : ℚ) (k : AlertKind)
    (h : ¬ w ≤ now - st k) :
    (should_play_audio_alert st w now k).2 = st := by
  unfold should_play_audio_alert
  rw [if_neg h]

/-- C1: `should_play_audio_alert` returns `true` and stamps `now`
exactly when `now - last_fired(kind) ≥ cooldown` (state unchanged and
`false` otherwise); consequently, once a call fires at `t₁`, a second
call on the same kind within the window returns `false`, and a second
call at least a window later returns `true`. -/
theorem cooldown_gate_try_fire_spec (st : CooldownState)
    (w t₁ t₂ : ℚ) (k : AlertKind) :
    ((should_play_audio_alert st w t₁ k).1 = true ↔ w ≤ t₁ - st k)
    ∧ ((should_play_audio_alert st w t₁ k).1 = true →
        (should_play_audio_alert st w t₁ k).2
          = fun j => if j = k then t₁ else st j)
    ∧ ((should_play_audio_alert st w t₁ k).1 = false →
        (should_play_audio_alert st w t₁ k).2 = st)
    ∧ (w ≤ t₁ - st k → t₂ - t₁ < w →
        (should_play_audio_alert
          (should_play_audio_alert st w t₁ k).2 w t₂ k).1 = false)
    ∧ (w ≤ t₁ - st k → w ≤ t₂ - t₁ →
        (should_play_audio_alert
          (should_play_audio_alert st w t₁ k).2 w t₂ k).1 = true) := by
  refine ⟨?_, ?_, ?_, ?_, ?_⟩
  · rw [should_play_fst]; simp
  · intro hfire
    rw [should_play_fst] at hfire
    exact should_play_snd_pos st w t₁ k (by simpa using hfire)
  · intro hfire
    rw [should_play_fst] at hfire
    exact should_play_snd_neg st w t₁ k (by simpa using hfire)
  · intro h₁ h₂
    rw [should_play_fst, should_play_snd_pos st w t₁ k h₁]
    simp only [if_pos rfl]
    simpa using not_le.mpr h₂
  · intro h₁ h₂
    rw [should_play_fst, should_play_snd_pos st w t₁ k h₁]
    simpa using h₂

/-- Witness for C1 at the initial state, window 30, first call at
`t = 100`, second calls at 110 (inside the window) and 140 (outside). -/
theorem cooldown_gate_try_fire_spec_witness :
    ((should_play_audio_alert initial_last_audio_alerts
        AUDIO_COOLDOWN 100 .highBpm).1 = true)
    ∧ ((should_play_audio_alert
          (should_play_audio_alert initial_last_audio_alerts
            AUDIO_COOLDOWN 100 .highBpm).2
          AUDIO_COOLDOWN 110 .highBpm).1 = false)
    ∧ ((should_play_audio_alert
          (should_play_audio_alert initial_last_audio_alerts
            AUDIO_COOLDOWN 100 .highBpm).2
          AUDIO_COOLDOWN 140 .highBpm).1 = true) := by
  have h₁ := cooldown_gate_try_fire_spec initial_last_audio_alerts
    AUDIO_COOLDOWN 100 110 .highBpm
  have h₂ := cooldown_gate_try_fire_spec initial_last_audio_alerts
    AUDIO_COOLDOWN 100 140 .highBpm
  refine ⟨h₁.1.mpr (by norm_num [initial_last_audio_alerts, AUDIO_COOLDOWN]),
    h₁.2.2.2.1 (by norm_num [initial_last_audio_alerts, AUDIO_COOLDOWN])
      (by norm_num [AUDIO_COOLDOWN]),
    h₂.2.2.2.2 (by norm_num [initial_last_audio_alerts, AUDIO_COOLDOWN])
      (by norm_num [AUDIO_COOLDOWN])⟩

/-- The task starts exactly when the guard was free. -/
theorem audio_task_started (s : AudioState) (o : ActionOutcome) :
    (audio_task s o).started = !s.locked := by
  cases s with
  | mk locked playing =>
    cases locked <;> cases o <;> simp [audio_task, run_func]

/-- C2: `audio_task` never lets an exception escape, and it leaves the
guard exactly as it found it — a task that acquired the lock (possible
precisely when the lock was free) has released it by the time it
returns, on the success, failure and raise paths alike. -/
theorem audio_task_guard_released (s : AudioState) (o : ActionOutcome) :
    (audio_task s o).escaped = false
    ∧ ((audio_task s o).state).locked = s.locked
    ∧ (audio_task s o).started = !s.locked := by
  cases s with
  | mk locked playing =>
    cases locked <;> cases o <;> simp [audio_task, run_func]

/-- C3: in a race of `n ≥ 2` dispatch attempts all reaching the
non-blocking acquire before any release, exactly one attempt starts and
the other `n - 1` return `false`. -/
theorem single_flight_race (n : Nat) (h : 2 ≤ n) :
    (dispatchRace n false).count true = 1
    ∧ (dispatchRace n false).count false = n - 1
    ∧ (dispatchRace n false).length = n := by
  obtain ⟨m, rfl⟩ : ∃ m, n = m + 1 := ⟨n - 1, by omega⟩
  simp [dispatchRace, dispatchRace_locked, List.count_replicate]

/-- Witness for C3 at `n = 3`. -/
theorem single_flight_race_witness :
    (dispatchRace 3 false).count true = 1
    ∧ (dispatchRace 3 false).count false = 3 - 1
    ∧ (dispatchRace 3 false).length = 3 :=
  single_flight_race 3 (by norm_num)

/-- The `AUDIO_THRESHOLDS` table of `src/server/main.py` lines 34-41. -/
def temp_high_threshold : ℚ := 37.5
def temp_low_threshold : ℚ := 35.0
def bpm_high_threshold : ℚ := 100
def bpm_low_threshold : ℚ := 60
def alcohol_detected_threshold : ℚ := 0.1
def motion_threshold : ℚ := 5.0

/-- Embedding of the `bpm` branch of `check_and_play_audio_alerts`
(src/server/main.py lines 112-122) for a non-null value.  Python's
`elif` chain with a short-circuit `and` is unfolded faithfully: the
cooldown call is evaluated only when the threshold conjunct before it
holds, and when it returns `False` the chain falls through to the next
`elif` (so a `value` of 60 whose `low_bpm` slot is suppressed still
reaches the `normal_bpm` test).  Returns the cooldown state after the
call and the alert kind whose branch was taken, if any. -/
def check_and_play_bpm (st : CooldownState) (w now : ℚ) (value : ℚ) :
    CooldownState × Option AlertKind :=
  if value ≥ bpm_high_threshold then
    if (should_play_audio_alert st w now .highBpm).1 then
      ((should_play_audio_alert st w now .highBpm).2, some .highBpm)
    else
      -- remaining elif conditions are false since value ≥ 100
      ((should_play_audio_alert st w now .highBpm).2, none)
  else if value > 0 ∧ value ≤ bpm_low_threshold then
    if (should_play_audio_alert st w now .lowBpm).1 then
      ((should_play_audio_alert st w now .lowBpm).2, some .lowBpm)
    else
      -- the chain falls through to `value > 0 and 60 <= value < 100`
      if value > 0 ∧ 60 ≤ value ∧ value < 100 then
        if (should_play_audio_alert
            (should_play_audio_alert st w now .lowBpm).2 w now .normalBpm).1 then
          ((should_play_audio_alert
            (should_play_audio_alert st w now .lowBpm).2 w now .normalBpm).2,
            some .normalBpm)
        else
          ((should_play_audio_alert
            (should_play_audio_alert st w now .lowBpm).2 w now .normalBpm).2,
            none)
      else ((should_play_audio_alert st w now .lowBpm).2, none)
  else if value > 0 ∧ 60 ≤ value ∧ value < 100 then
    if (should_play_audio_alert st w now .normalBpm).1 then
      ((should_play_audio_alert st w now .normalBpm).2, some .normalBpm)
    else ((should_play_audio_alert st w now .normalBpm).2, none)
  else (st, none)

/-- The `bpm` branch including the `value is not None` guard of
src/server/main.py line 112. -/
def check_and_play_bpm_opt (st : CooldownState) (w now : ℚ)
    (value : Option ℚ) : CooldownState × Option AlertKind :=
  match value with
  | none => (st, none)
  | some v => check_and_play_bpm st w now v

/-- Embedding of the `temp` branch of `check_and_play_audio_alerts`
(src/server/main.py lines 104-110) for a non-null value. -/
def check_and_play_temp (st : CooldownState) (w now : ℚ) (value : ℚ) :
    CooldownState × Option AlertKind :=
  if value ≥ temp_high_threshold then
    if (should_play_audio_alert st w now .highTemp).1 then
      ((should_play_audio_alert st w now .highTemp).2, some .highTemp)
    else
      -- `value <= 35.0` is false since value ≥ 37.5
      ((should_play_audio_alert st w now .highTemp).2, none)
  else if value ≤ temp_low_threshold then
    if (should_play_audio_alert st w now .lowTemp).1 then
      ((should_play_audio_alert st w now .lowTemp).2, some .lowTemp)
    else ((should_play_audio_alert st w now .lowTemp).2, none)
  else (st, none)

/-- `check_and_play_audio_alerts('bpm', value)` composed with the
dispatch step: when a branch fires, `play_audio_threaded` spawns
`audio_task` against the current audio lock state.  Returns the
cooldown state, the fired kind, the audio state after the task, and
whether the action actually started. -/
def bpm_alert_pipeline (st : CooldownState) (w now : ℚ) (value : ℚ)
    (audio : AudioState) (o : ActionOutcome) :
    CooldownState × Option AlertKind × AudioState × Bool :=
  match (check_and_play_bpm st w now value).2 with
  | none => ((check_and_play_bpm st w now value).1, none, audio, false)
  | some k =>
      ((check_and_play_bpm st w now value).1, some k,
        (audio_task audio o).state, (audio_task audio o).started)

/-- With every cooldown slot open, the bpm branch reduces to the pure
threshold chain. -/
theorem check_and_play_bpm_open (st : CooldownState) (w now : ℚ)
    (hopen : ∀ k, w ≤ now - st k) (v : ℚ) :
    (check_and_play_bpm st w now v).2 =
      if 100 ≤ v then some .highBpm
      else if 0 < v ∧ v ≤ 60 then some .lowBpm
      else if 0 < v ∧ 60 ≤ v ∧ v < 100 then some .normalBpm
      else none := by
  have h₁ : (should_play_audio_alert st w now .highBpm).1 = true := by
    rw [should_play_fst]; simpa using hopen .highBpm
  have h₂ : (should_play_audio_alert st w now .lowBpm).1 = true := by
    rw [should_play_fst]; simpa using hopen .lowBpm
  have h₃ : (should_play_audio_alert st w now .normalBpm).1 = true := by
    rw [should_play_fst]; simpa using hopen .normalBpm
  unfold check_and_play_bpm
  simp only [bpm_high_threshold, bpm_low_threshold, ge_iff_le, gt_iff_lt,
    h₁, h₂, h₃, if_true]
  split_ifs <;> rfl

/-- C4: with the gate open, the heart-rate evaluator fires
high-heart-rate iff `v ≥ 100`, low-heart-rate iff `0 < v ≤ 60`,
normal-heart-rate iff `60 ≤ v < 100` once the high and low checks have
failed, and nothing for `v = 0` or a null value; at most one kind fires
per call (the result is a single `Option AlertKind`). -/
theorem threshold_evaluator_bpm (st : CooldownState) (w now : ℚ)
    (hopen : ∀ k, w ≤ now - st k) (v : ℚ) :
    ((check_and_play_bpm st w now v).2 = some .highBpm ↔ 100 ≤ v)
    ∧ ((check_and_play_bpm st w now v).2 = some .lowBpm ↔ 0 < v ∧ v ≤ 60)
    ∧ (¬ 100 ≤ v → ¬ (0 < v ∧ v ≤ 60) →
        ((check_and_play_bpm st w now v).2 = some .normalBpm
          ↔ 60 ≤ v ∧ v < 100))
    ∧ ((check_and_play_bpm_opt st w now none).2 = none)
    ∧ (v = 0 → (check_and_play_bpm st w now v).2 = none) := by
  rw [check_and_play_bpm_open st w now hopen v]
  refine ⟨?_, ?_, ?_, rfl, ?_⟩
  · split_ifs with g₁ g₂ g₃
    · exact iff_of_true rfl g₁
    · exact iff_of_false (by simp) g₁
    · exact iff_of_false (by simp) g₁
    · exact iff_of_false (by simp) g₁
  · split_ifs with g₁ g₂ g₃
    · exact iff_of_false (by simp) (fun hc => by linarith [hc.2])
    · exact iff_of_true rfl g₂
    · exact iff_of_false (by simp) g₂
    · exact iff_of_false (by simp) g₂
  · intro hnh hnl
    rw [if_neg hnh, if_neg hnl]
    split_ifs with g₃
    · simp only [Option.some.injEq, true_iff]
      exact ⟨g₃.2.1, g₃.2.2⟩
    · simp only [reduceCtorEq, false_iff]
      intro hc
      exact g₃ ⟨by linarith [hc.1], hc.1, hc.2⟩
  · intro hv
    subst hv
    norm_num

/-- Witness for C4 at the initial cooldown state, window 30, time 100:
72 → normal, 45 → low, 130 → high, 0 → none. -/
theorem threshold_evaluator_bpm_witness :
    ((check_and_play_bpm initial_last_audio_alerts AUDIO_COOLDOWN 100 72).2
      = some .normalBpm)
    ∧ ((check_and_play_bpm initial_last_audio_alerts AUDIO_COOLDOWN 100 45).2
      = some .lowBpm)
    ∧ ((check_and_play_bpm initial_last_audio_alerts AUDIO_COOLDOWN 100 130).2
      = some .highBpm)
    ∧ ((check_and_play_bpm initial_last_audio_alerts AUDIO_COOLDOWN 100 0).2
      = none) := by
  have hopen : ∀ k, AUDIO_COOLDOWN ≤ (100 : ℚ) - initial_last_audio_alerts k := by
    intro k
    norm_num [initial_last_audio_alerts, AUDIO_COOLDOWN]
  refine ⟨?_, ?_, ?_, ?_⟩
  · exact ((threshold_evaluator_bpm initial_last_audio_alerts AUDIO_COOLDOWN
      100 hopen 72).2.2.1 (by norm_num) (by norm_num)).mpr (by norm_num)
  · exact ((threshold_evaluator_bpm initial_last_audio_alerts AUDIO_COOLDOWN
      100 hopen 45).2.1).mpr (by norm_num)
  · exact ((threshold_evaluator_bpm initial_last_audio_alerts AUDIO_COOLDOWN
      100 hopen 130).1).mpr (by norm_num)
  · exact (threshold_evaluator_bpm initial_last_audio_alerts AUDIO_COOLDOWN
      100 hopen 0).2.2.2.2 rfl

/-- Whenever a bpm branch fires kind `k`, the cooldown state it returns
stamps `k` at `now` — the stamp happens inside the condition, before
any dispatch is attempted. -/
theorem check_bpm_fired_stamp (st : CooldownState) (w now v : ℚ)
    (k : AlertKind) (h : (check_and_play_bpm st w now v).2 = some k) :
    (check_and_play_bpm st w now v).1 k = now := by
  unfold check_and_play_bpm at h ⊢
  split_ifs at h ⊢ with g₁ g₂ g₃ g₄ g₅ g₆ g₇ g₈
  · simp only [Option.some.injEq] at h
    subst h
    dsimp only
    rw [should_play_snd_pos st w now _ (by simpa [should_play_fst] using g₂)]
    simp
  · simp only [Option.some.injEq] at h
    subst h
    dsimp only
    rw [should_play_snd_pos st w now _ (by simpa [should_play_fst] using g₄)]
    simp
  · simp only [Option.some.injEq] at h
    subst h
    have hlow : (should_play_audio_alert st w now .lowBpm).2 = st :=
      should_play_snd_neg st w now .lowBpm
        (by simpa [should_play_fst] using g₄)
    rw [hlow] at g₆
    dsimp only
    rw [hlow]
    rw [should_play_snd_pos st w now _ (by simpa [should_play_fst] using g₆)]
    simp
  · simp only [Option.some.injEq] at h
    subst h
    dsimp only
    rw [should_play_snd_pos st w now _ (by simpa [should_play_fst] using g₈)]
    simp

/-- Whenever a bpm branch fires kind `k`, the gate test for `k` against
the incoming state succeeded. -/
theorem check_bpm_fired_gate (st : CooldownState) (w now v : ℚ)
    (k : AlertKind) (h : (check_and_play_bpm st w now v).2 = some k) :
    w ≤ now - st k := by
  unfold check_and_play_bpm at h
  split_ifs at h with g₁ g₂ g₃ g₄ g₅ g₆ g₇ g₈
  · simp only [Option.some.injEq] at h
    subst h
    simpa [should_play_fst] using g₂
  · simp only [Option.some.injEq] at h
    subst h
    simpa [should_play_fst] using g₄
  · simp only [Option.some.injEq] at h
    subst h
    have hlow : (should_play_audio_alert st w now .lowBpm).2 = st :=
      should_play_snd_neg st w now .lowBpm
        (by simpa [should_play_fst] using g₄)
    rw [hlow] at g₆
    simpa [should_play_fst] using g₆
  · simp only [Option.some.injEq] at h
    subst h
    simpa [should_play_fst] using g₈

/-- The pipeline's cooldown state and fired kind are those of
`check_and_play_audio_alerts`, independent of the audio lock. -/
theorem bpm_alert_pipeline_proj (st : CooldownState) (w now v : ℚ)
    (audio : AudioState) (o : ActionOutcome) :
    (bpm_alert_pipeline st w now v audio o).1
        = (check_and_play_bpm st w now v).1
    ∧ (bpm_alert_pipeline st w now v audio o).2.1
        = (check_and_play_bpm st w now v).2 := by
  unfold bpm_alert_pipeline
  cases hc : (check_and_play_bpm st w now v).2 <;> simp [hc]

/-- C10: the cooldown stamp happens before dispatch — when kind `k`
fires, `last_fired(k)` is set to `now` even when the single-flight
guard is busy and the action never starts, so any later evaluation
within the window cannot fire `k` again. -/
theorem cooldown_stamped_before_dispatch (st : CooldownState)
    (w now v : ℚ) (audio : AudioState) (o : ActionOutcome) (k : AlertKind) :
    ((bpm_alert_pipeline st w now v audio o).2.1 = some k →
      (bpm_alert_pipeline st w now v audio o).1 k = now)
    ∧ (audio.locked = true →
      (bpm_alert_pipeline st w now v audio o).2.2.2 = false)
    ∧ (∀ t₂ v₂, (bpm_alert_pipeline st w now v audio o).2.1 = some k →
        t₂ - now < w →
        (check_and_play_bpm (bpm_alert_pipeline st w now v audio o).1
          w t₂ v₂).2 ≠ some k) := by
  obtain ⟨hfst, hfired⟩ := bpm_alert_pipeline_proj st w now v audio o
  refine ⟨?_, ?_, ?_⟩
  · intro h
    rw [hfired] at h
    rw [hfst]
    exact check_bpm_fired_stamp st w now v k h
  · intro hlocked
    unfold bpm_alert_pipeline
    cases hc : (check_and_play_bpm st w now v).2 <;>
      simp [hc, audio_task_started audio o, hlocked]
  · intro t₂ v₂ h hwin hcon
    rw [hfired] at h
    rw [hfst] at hcon
    have hstamp := check_bpm_fired_stamp st w now v k h
    have hgate := check_bpm_fired_gate
      (check_and_play_bpm st w now v).1 w t₂ v₂ k hcon
    rw [hstamp] at hgate
    linarith

/-- Witness for C10: value 130 fires high-bpm at time 100 with the
guard busy; the stamp is set, the action does not start, and a second
evaluation of the same value at time 110 does not fire high-bpm. -/
theorem cooldown_stamped_before_dispatch_witness :
    ((bpm_alert_pipeline initial_last_audio_alerts AUDIO_COOLDOWN 100 130
        ⟨true, true⟩ .success).1 .highBpm = 100)
    ∧ ((bpm_alert_pipeline initial_last_audio_alerts AUDIO_COOLDOWN 100 130
        ⟨true, true⟩ .success).2.2.2 = false)
    ∧ ((check_and_play_bpm
        (bpm_alert_pipeline initial_last_audio_alerts AUDIO_COOLDOWN 100 130
          ⟨true, true⟩ .success).1 AUDIO_COOLDOWN 110 130).2
        ≠ some .highBpm) := by
  have hth := cooldown_stamped_before_dispatch initial_last_audio_alerts
    AUDIO_COOLDOWN 100 130 ⟨true, true⟩ .success .highBpm
  have hfired : (bpm_alert_pipeline initial_last_audio_alerts AUDIO_COOLDOWN
      100 130 ⟨true, true⟩ .success).2.1 = some .highBpm := by
    rw [(bpm_alert_pipeline_proj initial_last_audio_alerts AUDIO_COOLDOWN
      100 130 ⟨true, true⟩ .success).2]
    rw [check_and_play_bpm_open initial_last_audio_alerts AUDIO_COOLDOWN 100
      (by intro k; norm_num [initial_last_audio_alerts, AUDIO_COOLDOWN]) 130]
    norm_num
  exact ⟨hth.1 hfired, hth.2.1 rfl,
    hth.2.2 110 130 hfired (by norm_num [AUDIO_COOLDOWN])⟩

/-- The UI accent colors used by the cards in `src/app/screens.py`
(`accent_success`, `accent_warning`, `accent_danger`, `text_muted`),
as abstract tags. -/
inductive ColorTag where
  | success
  | warning
  | danger
  | muted
deriving DecidableEq, Repr

/-- Heart-rate status of `MainScreen._format_mqtt_data`
(src/app/screens.py lines 1055-1074) for a numeric or absent bpm. -/
def format_mqtt_hr_status (bpm : Option ℚ) : String :=
  match bpm with
  | none => "No Data"
  | some v =>
      if 60 ≤ v ∧ v ≤ 100 then "Normal"
      else if v < 60 then "Low"
      else "High"

/-- Heart-rate color of `MainScreen._format_mqtt_data`. -/
def format_mqtt_hr_color (bpm : Option ℚ) : ColorTag :=
  match bpm with
  | none => .muted
  | some v =>
      if 60 ≤ v ∧ v ≤ 100 then .success
      else if v < 60 then .warning
      else .danger

/-- Temperature status of `MainScreen._format_mqtt_data`
(src/app/screens.py lines 1077-1095) for a numeric or absent reading. -/
def format_mqtt_temp_status (t : Option ℚ) : String :=
  match t with
  | none => "No Data"
  | some v =>
      if 36.1 ≤ v ∧ v ≤ 37.5 then "Normal"
      else if v < 36.1 then "Low"
      else "Fever"

/-- Temperature status of `MongoDBReader._get_temp_status`
(src/app/mongodb_reader.py lines 86-93). -/
def mongo_get_temp_status (temp : ℚ) : String :=
  if temp < 36.0 then "Low"
  else if temp > 37.5 then "High"
  else "Normal"

/-- Temperature color of `MongoDBReader._get_temp_color`
(src/app/mongodb_reader.py lines 95-100). -/
def mongo_get_temp_color (temp : ℚ) : String :=
  if temp < 36.0 ∨ temp > 37.5 then "#F9A826" else "#2E7D32"

/-- Heart-rate status of `MongoDBReader._get_heart_rate_status`
(src/app/mongodb_reader.py lines 102-109). -/
def mongo_get_heart_rate_status (hr : ℚ) : String :=
  if hr < 60 then "Low"
  else if hr > 100 then "High"
  else "Normal"

/-- Heart-rate color of `MongoDBReader._get_heart_rate_color`. -/
def mongo_get_heart_rate_color (hr : ℚ) : String :=
  if hr < 60 ∨ hr > 100 then "#F9A826" else "#2E7D32"

/-- Alcohol status of `MongoDBReader._get_alcohol_status`
(src/app/mongodb_reader.py lines 118-127). -/
def mongo_get_alcohol_status (alcohol : ℚ) : String :=
  if alcohol > 0.08 then "High"
  else if alcohol > 0.05 then "Moderate"
  else if alcohol > 0.0 then "Low"
  else "None"

/-- Alcohol color of `MongoDBReader._get_alcohol_color`. -/
def mongo_get_alcohol_color (alcohol : ℚ) : String :=
  if alcohol > 0.08 then "#C62828"
  else if alcohol > 0.05 then "#F9A826"
  else if alcohol > 0.0 then "#3E5C76"
  else "#2E7D32"

/-- With every cooldown slot open, the temp branch reduces to the pure
threshold chain. -/
theorem check_and_play_temp_open (st : CooldownState) (w now : ℚ)
    (hopen : ∀ k, w ≤ now - st k) (v : ℚ) :
    (check_and_play_temp st w now v).2 =
      if 37.5 ≤ v then some .highTemp
      else if v ≤ 35 then some .lowTemp
      else none := by
  have h₁ : (should_play_audio_alert st w now .highTemp).1 = true := by
    rw [should_play_fst]; simpa using hopen .highTemp
  have h₂ : (should_play_audio_alert st w now .lowTemp).1 = true := by
    rw [should_play_fst]; simpa using hopen .lowTemp
  unfold check_and_play_temp
  simp only [temp_high_threshold, temp_low_threshold, ge_iff_le,
    h₁, h₂, if_true]
  norm_num
  split_ifs <;> rfl

/-- C7 counterexample: at the boundary value 100 the alerting evaluator
fires high-heart-rate while the display path classifies the same value
as "Normal", so the display path does not reproduce the §4.3
boundaries. -/
theorem display_alert_boundary_mismatch :
    format_mqtt_hr_status (some 100) = "Normal"
    ∧ mongo_get_heart_rate_status 100 = "Normal"
    ∧ (check_and_play_bpm initial_last_audio_alerts
        AUDIO_COOLDOWN 100 100).2 = some .highBpm := by
  refine ⟨by norm_num [format_mqtt_hr_status],
    by norm_num [mongo_get_heart_rate_status], ?_⟩
  rw [check_and_play_bpm_open initial_last_audio_alerts AUDIO_COOLDOWN 100
    (by intro k; norm_num [initial_last_audio_alerts, AUDIO_COOLDOWN]) 100]
  norm_num

/-- C7 (amended): the display-path classifiers use strict, not
inclusive, boundaries — heart rate is High iff `v > 100` and Low iff
`v < 60` on both display paths (with no `v > 0` guard), screens
temperature is Normal iff `36.1 ≤ v ≤ 37.5`, store temperature is High
iff `v > 37.5` and Low iff `v < 36.0` — while the alerting evaluator
fires high-heart-rate iff `v ≥ 100`, high-temperature iff `v ≥ 37.5`
and low-temperature iff `v ≤ 35.0`; the two paths therefore agree off
the boundaries but disagree at them (e.g. at heart rate 100 and
temperature 37.5). -/
theorem display_path_thresholds (v : ℚ) :
    (format_mqtt_hr_status (some v) = "High" ↔ 100 < v)
    ∧ (format_mqtt_hr_status (some v) = "Low" ↔ v < 60)
    ∧ (format_mqtt_hr_status (some v) = "Normal" ↔ 60 ≤ v ∧ v ≤ 100)
    ∧ (mongo_get_heart_rate_status v = "High" ↔ 100 < v)
    ∧ (mongo_get_heart_rate_status v = "Low" ↔ v < 60)
    ∧ (format_mqtt_temp_status (some v) = "Normal" ↔ 36.1 ≤ v ∧ v ≤ 37.5)
    ∧ (format_mqtt_temp_status (some v) = "Low" ↔ v < 36.1)
    ∧ (format_mqtt_temp_status (some v) = "Fever" ↔ 37.5 < v)
    ∧ (mongo_get_temp_status v = "High" ↔ 37.5 < v)
    ∧ (mongo_get_temp_status v = "Low" ↔ v < 36)
    ∧ ((check_and_play_bpm initial_last_audio_alerts
          AUDIO_COOLDOWN 100 v).2 = some .highBpm ↔ 100 ≤ v)
    ∧ ((check_and_play_temp initial_last_audio_alerts
          AUDIO_COOLDOWN 100 v).2 = some .highTemp ↔ 37.5 ≤ v)
    ∧ ((check_and_play_temp initial_last_audio_alerts
          AUDIO_COOLDOWN 100 v).2 = some .lowTemp ↔ v ≤ 35) := by
  have hopen : ∀ k, AUDIO_COOLDOWN ≤ (100 : ℚ)
      - initial_last_audio_alerts k := by
    intro k
    norm_num [initial_last_audio_alerts, AUDIO_COOLDOWN]
  refine ⟨?_, ?_, ?_, ?_, ?_, ?_, ?_, ?_, ?_, ?_, ?_, ?_, ?_⟩
  · unfold format_mqtt_hr_status
    dsimp only
    split_ifs with h₁ h₂
    · exact iff_of_false (by decide) (by intro hc; linarith [h₁.2])
    · exact iff_of_false (by decide) (by intro hc; linarith)
    · push_neg at h₁ h₂
      exact iff_of_true rfl (h₁ h₂)
  · unfold format_mqtt_hr_status
    dsimp only
    split_ifs with h₁ h₂
    · exact iff_of_false (by decide) (by intro hc; linarith [h₁.1])
    · exact iff_of_true rfl h₂
    · exact iff_of_false (by decide) h₂
  · unfold format_mqtt_hr_status
    dsimp only
    split_ifs with h₁ h₂
    · exact iff_of_true rfl h₁
    · exact iff_of_false (by decide) (by intro hc; exact h₁ hc)
    · exact iff_of_false (by decide) (by intro hc; exact h₁ hc)
  · unfold mongo_get_heart_rate_status
    split_ifs with h₁ h₂
    · exact iff_of_false (by decide) (by intro hc; linarith)
    · exact iff_of_true rfl h₂
    · exact iff_of_false (by decide) h₂
  · unfold mongo_get_heart_rate_status
    split_ifs with h₁ h₂
    · exact iff_of_true rfl h₁
    · exact iff_of_false (by decide) h₁
    · exact iff_of_false (by decide) h₁
  · unfold format_mqtt_temp_status
    dsimp only
    split_ifs with h₁ h₂
    · exact iff_of_true rfl h₁
    · exact iff_of_false (by decide) (by intro hc; exact h₁ hc)
    · exact iff_of_false (by decide) (by intro hc; exact h₁ hc)
  · unfold format_mqtt_temp_status
    dsimp only
    split_ifs with h₁ h₂
    · exact iff_of_false (by decide) (by intro hc; linarith [h₁.1])
    · exact iff_of_true rfl h₂
    · exact iff_of_false (by decide) h₂
  · unfold format_mqtt_temp_status
    dsimp only
    split_ifs with h₁ h₂
    · exact iff_of_false (by decide) (by intro hc; linarith [h₁.2])
    · exact iff_of_false (by decide) (by intro hc; linarith)
    · push_neg at h₁ h₂
      exact iff_of_true rfl (h₁ h₂)
  · unfold mongo_get_temp_status
    split_ifs with h₁ h₂
    · exact iff_of_false (by decide) (by intro hc; norm_num at h₁; linarith)
    · exact iff_of_true rfl h₂
    · exact iff_of_false (by decide) h₂
  · unfold mongo_get_temp_status
    split_ifs with h₁ h₂
    · exact iff_of_true rfl (by norm_num at h₁; linarith)
    · exact iff_of_false (by decide) (by norm_num at h₁; intro hc; linarith)
    · exact iff_of_false (by decide) (by norm_num at h₁; intro hc; linarith)
  · rw [check_and_play_bpm_open initial_last_audio_alerts
      AUDIO_COOLDOWN 100 hopen v]
    split_ifs with h₁ h₂ h₃
    · exact iff_of_true rfl h₁
    · exact iff_of_false (by simp) h₁
    · exact iff_of_false (by simp) h₁
    · exact iff_of_false (by simp) h₁
  · rw [check_and_play_temp_open initial_last_audio_alerts
      AUDIO_COOLDOWN 100 hopen v]
    split_ifs with h₁ h₂
    · exact iff_of_true rfl h₁
    · exact iff_of_false (by simp) h₁
    · exact iff_of_false (by simp) h₁
  · rw [check_and_play_temp_open initial_last_audio_alerts
      AUDIO_COOLDOWN 100 hopen v]
    split_ifs with h₁ h₂
    · exact iff_of_false (by simp) (by intro hc; linarith)
    · exact iff_of_true rfl h₂
    · exact iff_of_false (by simp) h₂

/-- A scalar JSON leaf as stored in `mqtt_data.json`. -/
inductive JLeaf where
  | jnull
  | jbool (b : Bool)
  | jnum (q : ℚ)
  | jstr (s : String)
deriving DecidableEq, Repr

/-- A top-level field value of the polled JSON document: either a
scalar or a one-level group object (the file's `weight`, `sensors`,
`health`, `tempgun` groups). -/
inductive JTop where
  | leaf (l : JLeaf)
  | obj (fields : List (String × JLeaf))
deriving DecidableEq, Repr

/-- A parsed `mqtt_data.json` document, as the ordered key/value pairs
`json.load` produces; Python dict equality is structural, modelled by
decidable equality on this representation. -/
def SensorDoc : Type := List (String × JTop)

instance : DecidableEq SensorDoc := by
  unfold SensorDoc
  infer_instance

/-- The default/empty structure `DataReader.get_sensor_data` returns
when the file does not exist (src/app/data_reader.py lines 34-40). -/
def default_sensor_data : SensorDoc :=
  [("weight", .obj [("value", .jnull), ("status", .jnull)]),
   ("sensors", .obj [("gyro", .jnull), ("accel", .jnull),
     ("temp", .jnull), ("distance", .jnull)]),
   ("health", .obj [("bpm", .jnull)]),
   ("tempgun", .obj [("temp_object", .jnull)])]

/-- The observable outcome of one attempt to read and parse the polled
file: it parses to a document, the file is missing, or the content
fails to parse (`json.JSONDecodeError`). -/
inductive FileRead where
  | ok (d : SensorDoc)
  | missing
  | unparseable

/-- Embedding of `DataReader.get_sensor_data`
(src/app/data_reader.py lines 27-43): a parse returns the document, a
missing file returns the default structure, and a parse error returns
`self.last_data`. -/
def get_sensor_data : FileRead → SensorDoc → SensorDoc
  | .ok d, _ => d
  | .missing, _ => default_sensor_data
  | .unparseable, last => last

/-- One iteration of `DataReader._monitor_loop`
(src/app/data_reader.py lines 89-101): fetch, compare against
`self.last_data` with dict equality, and on inequality replace
`last_data` and fan out to the callbacks.  Returns the new `last_data`
and whether the callbacks were invoked.  The initial `last_data` is the
empty dict `[]` (src/app/data_reader.py line 12). -/
def reader_monitor_step (last : SensorDoc) (f : FileRead) :
    SensorDoc × Bool :=
  if get_sensor_data f last ≠ last then (get_sensor_data f last, true)
  else (last, false)

/-- A document in the MongoDB `data` collection, as the fields
`get_latest_data` reads: the monotonically increasing `_id` and the
three optional sensor fields (absent fields are `none`). -/
structure DbDoc where
  oid : ℕ
  temperature : Option ℚ
  pulse_rate : Option ℚ
  alcohol_percentage : Option ℚ
deriving DecidableEq, Repr

/-- One value/unit/status/color card of the formatted data built by
`MongoDBReader.get_latest_data`. -/
structure SensorCard where
  value : ℚ
  unit : String
  status : String
  color : String
deriving DecidableEq, Repr

/-- The full formatted snapshot built by
`MongoDBReader.get_latest_data` (src/app/mongodb_reader.py lines
47-66). -/
structure FormattedData where
  temperature : SensorCard
  heart_rate : SensorCard
  alcohol : SensorCard
deriving DecidableEq, Repr

/-- Embedding of `MongoDBReader.get_latest_data`
(src/app/mongodb_reader.py lines 36-71): formats the latest record
using `latest.get(field, 0)` defaults, or returns `None` when there is
no record. -/
def get_latest_data (latest : Option DbDoc) : Option FormattedData :=
  match latest with
  | none => none
  | some d =>
      some
        { temperature :=
            { value := d.temperature.getD 0, unit := "°C",
              status := mongo_get_temp_status (d.temperature.getD 0),
              color := mongo_get_temp_color (d.temperature.getD 0) },
          heart_rate :=
            { value := d.pulse_rate.getD 0, unit := "bpm",
              status := mongo_get_heart_rate_status (d.pulse_rate.getD 0),
              color := mongo_get_heart_rate_color (d.pulse_rate.getD 0) },
          alcohol :=
            { value := d.alcohol_percentage.getD 0, unit := "%",
              status := mongo_get_alcohol_status
                (d.alcohol_percentage.getD 0),
              color := mongo_get_alcohol_color
                (d.alcohol_percentage.getD 0) } }

/-- One iteration of `MongoDBReader._monitor_loop`
(src/app/mongodb_reader.py lines 165-179): fetch the latest formatted
data; if it is truthy and differs from `self.last_data`, replace
`last_data` and fan out.  The initial `last_data` is `None`
(src/app/mongodb_reader.py line 18). -/
def mongo_monitor_step (last : Option FormattedData) (fetch : Option DbDoc) :
    Option FormattedData × Bool :=
  match get_latest_data fetch with
  | none => (last, false)
  | some d => if some d ≠ last then (some d, true) else (last, false)

/-- C5 counterexample: the file reader's never-observed sentinel is the
empty dict, so the first-ever observation of an empty document is *not*
reported as changed — `diff(null, D)` is false for the empty `D`,
refuting "diff(null, D) is true for every D". -/
theorem snapshot_diff_first_empty_not_reported :
    reader_monitor_step ([] : SensorDoc) (.ok []) = ([], false) := by
  simp [reader_monitor_step, get_sensor_data]

/-- C5 (amended): `diff(D, D)` is false in both polling readers (an
unchanged snapshot never fans out); the first-ever observation is
reported as changed for every document in the store reader, and for
every non-empty document in the file reader (whose `null` sentinel is
the empty dict); store-reader equality is structural on the formatted
values — the record id, which carries the insertion timestamp, is
excluded, so advancing it alone never signals a change. -/
theorem snapshot_diff_spec :
    (∀ d : SensorDoc, reader_monitor_step d (.ok d) = (d, false))
    ∧ (∀ d : SensorDoc, d ≠ ([] : SensorDoc) →
        reader_monitor_step ([] : SensorDoc) (.ok d) = (d, true))
    ∧ (∀ r : DbDoc,
        (mongo_monitor_step (get_latest_data (some r)) (some r)).2 = false)
    ∧ (∀ r : DbDoc, (mongo_monitor_step none (some r)).2 = true)
    ∧ (∀ r₁ r₂ : DbDoc, r₁.temperature = r₂.temperature →
        r₁.pulse_rate = r₂.pulse_rate →
        r₁.alcohol_percentage = r₂.alcohol_percentage →
        (mongo_monitor_step (get_latest_data (some r₁)) (some r₂)).2
          = false) := by
  refine ⟨?_, ?_, ?_, ?_, ?_⟩
  · intro d
    simp [reader_monitor_step, get_sensor_data]
  · intro d hd
    simp [reader_monitor_step, get_sensor_data, hd]
  · intro r
    simp [mongo_monitor_step, get_latest_data]
  · intro r
    simp [mongo_monitor_step, get_latest_data]
  · intro r₁ r₂ ht hp ha
    have hsame : get_latest_data (some r₂) = get_latest_data (some r₁) := by
      simp [get_latest_data, ht, hp, ha]
    unfold mongo_monitor_step
    rw [hsame]
    simp [get_latest_data]

/-- Witness for C5 (amended) at concrete documents: a non-empty first
observation fans out, and two store records equal except for `_id` do
not. -/
theorem snapshot_diff_spec_witness :
    (reader_monitor_step ([] : SensorDoc) (.ok default_sensor_data)
      = (default_sensor_data, true))
    ∧ ((mongo_monitor_step
        (get_latest_data (some ⟨1, some 37, some 72, some 0⟩))
        (some ⟨2, some 37, some 72, some 0⟩)).2 = false) :=
  ⟨snapshot_diff_spec.2.1 default_sensor_data (by decide),
    snapshot_diff_spec.2.2.2.2 ⟨1, some 37, some 72, some 0⟩
      ⟨2, some 37, some 72, some 0⟩ rfl rfl rfl⟩

/-- C9 counterexample: when the polled file is missing (resource
unreachable), `get_sensor_data` fabricates the default all-null
document instead of retaining the previous one, and the monitor loop
reports it as a change — here the previously accepted document held a
bpm of 70 and the cycle fans out the default document. -/
theorem polling_reader_missing_file_reports_change :
    reader_monitor_step
      [("health", JTop.obj [("bpm", JLeaf.jnum 70)])] .missing
      = (default_sensor_data, true) := by
  simp only [reader_monitor_step, get_sensor_data]
  rw [if_pos (by decide)]

/-- C9 (amended): a parse failure retains the previously accepted
document and reports no change, and a read error never terminates the
loop (the step is total); a missing file, however, is surfaced as the
default all-null document, which is reported as a change whenever it
differs from the last-accepted document. -/
theorem polling_reader_error_tolerance :
    (∀ last : SensorDoc, reader_monitor_step last .unparseable
      = (last, false))
    ∧ (∀ last : SensorDoc, last ≠ default_sensor_data →
        reader_monitor_step last .missing = (default_sensor_data, true))
    ∧ (reader_monitor_step default_sensor_data .missing
      = (default_sensor_data, false)) := by
  refine ⟨?_, ?_, ?_⟩
  · intro last
    simp [reader_monitor_step, get_sensor_data]
  · intro last hlast
    have hne : default_sensor_data ≠ last := fun h => hlast h.symm
    simp [reader_monitor_step, get_sensor_data, hne]
  · simp [reader_monitor_step, get_sensor_data]

/-- Witness for C9 (amended): a parse failure on a concrete last
document retains it, and a missing file on the same document fans out
the default. -/
theorem polling_reader_error_tolerance_witness :
    (reader_monitor_step
      [("health", JTop.obj [("bpm", JLeaf.jnum 70)])] .unparseable
      = ([("health", JTop.obj [("bpm", JLeaf.jnum 70)])], false))
    ∧ (reader_monitor_step
      [("health", JTop.obj [("bpm", JLeaf.jnum 70)])] .missing
      = (default_sensor_data, true)) :=
  ⟨polling_reader_error_tolerance.1 _,
    polling_reader_error_tolerance.2.1 _ (by decide)⟩

/-- Whitespace as recognized by Python's `str.strip`. -/
def isWsChar (c : Char) : Bool :=
  c = ' ' || c = '\t' || c = '\r' || c = '\n'

/-- `line.strip()` on a line of characters. -/
def pyStrip (l : List Char) : List Char :=
  ((l.dropWhile isWsChar).reverse.dropWhile isWsChar).reverse

/-- The brace count contributed by one line: `+1` per `{`, `-1` per
`}` (src/app/screens.py lines 418-422). -/
def braceDelta (l : List Char) : ℤ :=
  l.foldl
    (fun acc c =>
      if c = '\x7b' then acc + 1
      else if c = '\x7d' then acc - 1
      else acc)
    0

/-- The accumulator of the line loop in
`MainScreen._get_latest_mqtt_data` / `refresh_mqtt_data`
(src/app/screens.py lines 406-434): the complete validated chunks, the
chunk being accumulated, and the running brace count. -/
structure MqttParseState where
  json_lines : List (List Char)
  current_json : List Char
  brace_count : ℤ
deriving DecidableEq, Repr

/-- One iteration of the line loop (src/app/screens.py lines 410-434),
parameterized by the `json.loads`-validity oracle `valid`: skip blank
lines; append the stripped line to the current chunk and update the
brace count; when the count reaches zero on a non-empty chunk, keep the
chunk if it validates and otherwise reset — in both cases clearing the
accumulator — and on a nonzero count keep accumulating. -/
def process_mqtt_line (valid : List Char → Bool) (st : MqttParseState)
    (rawLine : List Char) : MqttParseState :=
  if pyStrip rawLine = [] then st
  else
    if st.brace_count + braceDelta (pyStrip rawLine) = 0
        ∧ st.current_json ++ pyStrip rawLine ≠ [] then
      if valid (st.current_json ++ pyStrip rawLine) then
        { json_lines := st.json_lines ++ [st.current_json ++ pyStrip rawLine],
          current_json := [],
          brace_count := st.brace_count + braceDelta (pyStrip rawLine) }
      else
        { json_lines := st.json_lines, current_json := [], brace_count := 0 }
    else
      { json_lines := st.json_lines,
        current_json := st.current_json ++ pyStrip rawLine,
        brace_count := st.brace_count + braceDelta (pyStrip rawLine) }

/-- The whole recovery parser of `MainScreen._get_latest_mqtt_data`
(src/app/screens.py lines 397-442): fold the line loop over the file's
lines and return the last validated chunk, `none` when there is none
(the final `json.loads` of the returned chunk is the identity on the
chunk here, the oracle having already accepted it). -/
def get_latest_mqtt_data (valid : List Char → Bool)
    (lines : List (List Char)) : Option (List Char) :=
  (lines.foldl (process_mqtt_line valid)
    ⟨[], [], 0⟩).json_lines.getLast?

/-- A state with an empty accumulator and zero brace count: the state
at a record boundary. -/
def MqttParseState.clean (st : MqttParseState) : Prop :=
  st.current_json = [] ∧ st.brace_count = 0

/-- An empty line contributes no braces. -/
theorem braceDelta_nil : braceDelta [] = 0 := rfl

/-- From a record boundary, a line completing a chunk that validates
appends it to the recovered records and clears the accumulator. -/
theorem process_mqtt_line_clean_valid (valid : List Char → Bool)
    (st : MqttParseState) (l : List Char)
    (hcur : st.current_json = []) (hcnt : st.brace_count = 0)
    (h₀ : braceDelta (pyStrip l) = 0) (hne : pyStrip l ≠ [])
    (hval : valid (pyStrip l) = true) :
    process_mqtt_line valid st l
      = ⟨st.json_lines ++ [pyStrip l], [], 0⟩ := by
  unfold process_mqtt_line
  rw [if_neg hne, hcur, hcnt]
  simp only [zero_add, List.nil_append]
  rw [if_pos ⟨h₀, hne⟩, if_pos hval, h₀]

/-- From a record boundary, a line leaving the braces unbalanced only
accumulates; the recovered records are untouched. -/
theorem process_mqtt_line_clean_unbalanced (valid : List Char → Bool)
    (st : MqttParseState) (l : List Char)
    (hcur : st.current_json = []) (hcnt : st.brace_count = 0)
    (h₀ : braceDelta (pyStrip l) ≠ 0) :
    process_mqtt_line valid st l
      = ⟨st.json_lines, pyStrip l, braceDelta (pyStrip l)⟩ := by
  have hne : pyStrip l ≠ [] := by
    intro hnil
    rw [hnil] at h₀
    exact h₀ braceDelta_nil
  unfold process_mqtt_line
  rw [if_neg hne, hcur, hcnt]
  simp only [zero_add, List.nil_append]
  rw [if_neg (by intro hc; exact h₀ hc.1)]

/-- From a record boundary, a brace-complete chunk that fails
validation is dropped and the accumulator reset; the recovered records
are untouched. -/
theorem process_mqtt_line_clean_invalid (valid : List Char → Bool)
    (st : MqttParseState) (l : List Char)
    (hcur : st.current_json = []) (hcnt : st.brace_count = 0)
    (h₀ : braceDelta (pyStrip l) = 0) (hne : pyStrip l ≠ [])
    (hval : valid (pyStrip l) = false) :
    process_mqtt_line valid st l = ⟨st.json_lines, [], 0⟩ := by
  unfold process_mqtt_line
  rw [if_neg hne, hcur, hcnt]
  simp only [zero_add, List.nil_append]
  rw [if_pos ⟨h₀, hne⟩, if_neg (by simp [hval])]

/-- C6: from any record boundary, the recovery parser (i) makes a newly
completed chunk that validates the authoritative (last) record,
(ii) leaves the result untouched when the next line leaves the braces
unbalanced (an incomplete trailing fragment is discarded, the read does
not fail), and (iii) leaves the result untouched when a
brace-complete chunk fails validation (a malformed record is skipped,
the read does not fail). -/
theorem mqtt_concat_recovery (valid : List Char → Bool)
    (lines : List (List Char)) (l : List Char)
    (hclean : (lines.foldl (process_mqtt_line valid)
      ⟨[], [], 0⟩).clean) :
    (braceDelta (pyStrip l) = 0 → pyStrip l ≠ [] →
      valid (pyStrip l) = true →
      get_latest_mqtt_data valid (lines ++ [l]) = some (pyStrip l))
    ∧ (braceDelta (pyStrip l) ≠ 0 →
      get_latest_mqtt_data valid (lines ++ [l])
        = get_latest_mqtt_data valid lines)
    ∧ (braceDelta (pyStrip l) = 0 → pyStrip l ≠ [] →
      valid (pyStrip l) = false →
      get_latest_mqtt_data valid (lines ++ [l])
        = get_latest_mqtt_data valid lines) := by
  obtain ⟨hcur, hcnt⟩ := hclean
  refine ⟨?_, ?_, ?_⟩
  · intro h₀ hne hval
    unfold get_latest_mqtt_data
    rw [List.foldl_append]
    simp only [List.foldl_cons, List.foldl_nil]
    rw [process_mqtt_line_clean_valid valid _ l hcur hcnt h₀ hne hval]
    exact List.getLast?_concat _
  · intro h₀
    unfold get_latest_mqtt_data
    rw [List.foldl_append]
    simp only [List.foldl_cons, List.foldl_nil]
    rw [process_mqtt_line_clean_unbalanced valid _ l hcur hcnt h₀]
  · intro h₀ hne hval
    unfold get_latest_mqtt_data
    rw [List.foldl_append]
    simp only [List.foldl_cons, List.foldl_nil]
    rw [process_mqtt_line_clean_invalid valid _ l hcur hcnt h₀ hne hval]

/-- Witness for C6, the two-object scenario: a file holding a complete
valid object on the first line and a second object with unbalanced
braces on the next returns the first (last complete) object rather than
failing. -/
theorem mqtt_concat_recovery_witness :
    get_latest_mqtt_data
      (fun s => decide (s = String.data "\x7b\"a\": 1\x7d"))
      [String.data "\x7b\"a\": 1\x7d", String.data "\x7b\"b\": 2"]
      = some (String.data "\x7b\"a\": 1\x7d") := by
  have h₁ := (mqtt_concat_recovery
    (fun s => decide (s = String.data "\x7b\"a\": 1\x7d"))
    [] (String.data "\x7b\"a\": 1\x7d") ⟨rfl, rfl⟩).1
    (by decide) (by decide) (by decide)
  have hclean₁ : (([String.data "\x7b\"a\": 1\x7d"]).foldl
      (process_mqtt_line
        (fun s => decide (s = String.data "\x7b\"a\": 1\x7d")))
      ⟨[], [], 0⟩).clean := by
    constructor <;> decide
  have h₂ := (mqtt_concat_recovery
    (fun s => decide (s = String.data "\x7b\"a\": 1\x7d"))
    [String.data "\x7b\"a\": 1\x7d"] (String.data "\x7b\"b\": 2")
    hclean₁).2.1 (by decide)
  have hstrip : pyStrip (String.data "\x7b\"a\": 1\x7d")
      = String.data "\x7b\"a\": 1\x7d" := by decide
  rw [show ([String.data "\x7b\"a\": 1\x7d",
        String.data "\x7b\"b\": 2"] : List (List Char))
      = [String.data "\x7b\"a\": 1\x7d"] ++ [String.data "\x7b\"b\": 2"]
    from rfl]
  rw [h₂]
  rw [show ([String.data "\x7b\"a\": 1\x7d"] : List (List Char))
      = ([] : List (List Char)) ++ [String.data "\x7b\"a\": 1\x7d"]
    from rfl]
  rw [h₁, hstrip]

/-- A Python value produced by `json.loads` as far as the temperature
branch of `on_message` inspects it: a number, a string, or an object.
`float()` on a string is abstracted by the `floatOf` oracle below; on
an object it always raises. -/
inductive PVal where
  | num (q : ℚ)
  | str (s : String)
  | dict (fields : List (String × PVal))

/-- The payload as it enters the temperature branch: either
`json.loads` succeeded with a value, or it raised `JSONDecodeError` and
the raw text is used. -/
inductive ParsedPayload where
  | parsed (v : PVal)
  | unparsed (s : String)

/-- Python `float(value)`: a number converts, a string converts iff the
`floatOf` oracle accepts it, an object always raises (`none`). -/
def pyFloat (floatOf : String → Option ℚ) : PVal → Option ℚ
  | .num q => some q
  | .str s => floatOf s
  | .dict _ => none

/-- First-match dictionary lookup, Python `d[key]` on a dict built in
insertion order. -/
def lookupField (key : String) : List (String × PVal) → Option PVal
  | [] => none
  | (k, v) :: rest => if k = key then some v else lookupField key rest

/-- The `for key, value in temp_data.items()` fallback loop of
`on_message` (src/server/main.py lines 192-200): the first field whose
value converts with `float` wins; the rest are skipped. -/
def firstNumeric (floatOf : String → Option ℚ) :
    List (String × PVal) → Option ℚ
  | [] => none
  | (_, v) :: rest =>
      match pyFloat floatOf v with
      | some q => some q
      | none => firstNumeric floatOf rest

/-- Embedding of the temperature branch of `on_message`
(src/server/main.py lines 177-210): canonical key `temp`, then
`temperature`, then the first-numeric-field fallback, then the bare
scalar parse; a `float()` failure on a canonical key propagates to the
outer handler, which drops the message (`none`).  The result is the
extracted Reading value, `none` when no Reading is produced. -/
def on_message_temp (floatOf : String → Option ℚ) :
    ParsedPayload → Option ℚ
  | .parsed (.dict fields) =>
      match lookupField "temp" fields with
      | some tv => pyFloat floatOf tv
      | none =>
          match lookupField "temperature" fields with
          | some tv => pyFloat floatOf tv
          | none => firstNumeric floatOf fields
  | .parsed v => pyFloat floatOf v
  | .unparsed s => floatOf s

/-- If every field value fails `float()`, the fallback loop yields
nothing. -/
theorem firstNumeric_none (floatOf : String → Option ℚ)
    (fields : List (String × PVal))
    (h : ∀ kv ∈ fields, pyFloat floatOf kv.2 = none) :
    firstNumeric floatOf fields = none := by
  induction fields with
  | nil => rfl
  | cons kv rest ih =>
      unfold firstNumeric
      rw [h kv (by simp)]
      exact ih fun kv hkv => h kv (by simp [hkv])

/-- A value found by lookup is a value of one of the fields. -/
theorem lookupField_mem (key : String) (fields : List (String × PVal))
    (v : PVal) (h : lookupField key fields = some v) :
    ∃ kv ∈ fields, kv.2 = v := by
  induction fields with
  | nil => simp [lookupField] at h
  | cons kv rest ih =>
      unfold lookupField at h
      by_cases hk : kv.1 = key
      · rw [if_pos hk] at h
        exact ⟨kv, by simp, by simpa using h⟩
      · rw [if_neg hk] at h
        obtain ⟨kv', hmem, hv⟩ := ih h
        exact ⟨kv', by simp [hmem], hv⟩

/-- C8 counterexample: the store reader coerces a missing field to the
number 0 — a record with no `pulse_rate` field is surfaced to observers
as heart-rate value `0` with status `"Low"`, not as a no-data state. -/
theorem store_reader_missing_field_surfaces_zero :
    (get_latest_data (some ⟨1, none, none, none⟩)).map
        (fun f => f.heart_rate.value) = some 0
    ∧ (get_latest_data (some ⟨1, none, none, none⟩)).map
        (fun f => f.heart_rate.status) = some "Low" := by
  constructor <;> rfl

/-- C8 (amended): the bus-path normalizer never coerces absent data to
0 — a structured temperature payload with no `float`-convertible field
anywhere produces no Reading — and the file-reader display path
surfaces an absent bpm as the distinct "No Data" state; the store
reader, however, defaults a missing record field to the number 0 via
`latest.get(field, 0)`. -/
theorem no_zero_coercion_spec (floatOf : String → Option ℚ)
    (fields : List (String × PVal))
    (h : ∀ kv ∈ fields, pyFloat floatOf kv.2 = none) :
    on_message_temp floatOf (.parsed (.dict fields)) = none
    ∧ format_mqtt_hr_status none = "No Data"
    ∧ format_mqtt_hr_color none = ColorTag.muted
    ∧ (∀ d : DbDoc, d.pulse_rate = none →
        (get_latest_data (some d)).map (fun f => f.heart_rate.value)
          = some 0) := by
  refine ⟨?_, rfl, rfl, ?_⟩
  · unfold on_message_temp
    dsimp only
    cases hl : lookupField "temp" fields with
    | some tv =>
        obtain ⟨kv, hmem, rfl⟩ := lookupField_mem _ _ _ hl
        exact h kv hmem
    | none =>
        cases hl' : lookupField "temperature" fields with
        | some tv =>
            obtain ⟨kv, hmem, rfl⟩ := lookupField_mem _ _ _ hl'
            exact h kv hmem
        | none => exact firstNumeric_none floatOf fields h
  · intro d hd
    cases d with
    | mk oid t p a =>
        cases hd
        rfl

/-- Witness for C8 (amended) on a payload whose only field is a
non-numeric string, with an oracle rejecting every string. -/
theorem no_zero_coercion_spec_witness :
    on_message_temp (fun _ => none)
      (.parsed (.dict [("note", PVal.str "warming up")])) = none
    ∧ format_mqtt_hr_status none = "No Data"
    ∧ format_mqtt_hr_color none = ColorTag.muted
    ∧ (get_latest_data (some ⟨7, some 37, none, some 0⟩)).map
        (fun f => f.heart_rate.value) = some 0 := by
  have hth := no_zero_coercion_spec (fun _ => none)
    [("note", PVal.str "warming up")]
    (by
      intro kv hkv
      rw [List.mem_singleton] at hkv
      subst hkv
      rfl)
  exact ⟨hth.1, hth.2.1, hth.2.2.1, hth.2.2.2 ⟨7, some 37, none, some 0⟩ rfl⟩
